import Mathlib

/-
  Verification of the ThoughtCaptcha backend core against its specification.

  Shallow embedding of the repository's data model and operations:
    * models.py    — Assignment / Submission / SystemPrompt rows,
    * crud.py      — the database operations (state-passing over DBState),
    * openrouter_client.py — the follow-up question generator,
    * main.py      — the API endpoints, with the transactional
                     commit-on-success / rollback-on-exception behaviour of
                     database.get_db made explicit (an endpoint that raises
                     returns the caller-visible state unchanged).

  Machine integers of the source are modelled as Nat (ids never overflow in
  the source's domain); nullable columns as Option; Python string truthiness
  as an explicit pyTruthy test.
-/

namespace ThoughtCaptcha

/-- models.Assignment: one row of the assignments table.
    Timestamps are omitted: no claim mentions them. -/
structure Assignment where
  id : Nat
  prompt_text : String
  is_current : Bool
deriving Repr, DecidableEq

/-- models.Submission: one row of the submissions table. -/
structure Submission where
  id : Nat
  original_content : String
  generated_question : Option String
  student_response : Option String
  assignment_id : Option Nat
deriving Repr, DecidableEq

/-- models.SystemPrompt: the singleton configuration row (fixed id 1). -/
structure SystemPrompt where
  id : Nat
  prompt_text : String
deriving Repr, DecidableEq

/-- models.DEFAULT_SYSTEM_PROMPT, the built-in default prompt text. -/
def DEFAULT_SYSTEM_PROMPT : String :=
  "You are an AI assistant helping to verify student understanding. " ++
  "You will receive the original assignment question and the student's response to it. " ++
  "Based on BOTH the question and the response, generate ONE concise follow-up question " ++
  "that probes the student's understanding of their response *in relation to the assignment*, or asks for clarification on a specific aspect connecting the two. " ++
  "The follow-up question should be answerable in 60-90 seconds."

/-- The visible database state: the three tables plus the store's id
    counters (primary keys are assigned by the store). -/
structure DBState where
  assignments : List Assignment
  submissions : List Submission
  system_prompts : List SystemPrompt
  next_assignment_id : Nat
  next_submission_id : Nat
deriving Repr, DecidableEq

/-! ## crud.py — assignment operations -/

/-- crud.get_assignment: select the assignment with the given id. -/
def get_assignment (s : DBState) (assignment_id : Nat) : Option Assignment :=
  s.assignments.find? (fun a => a.id == assignment_id)

/-- crud.get_current_assignment: first assignment with is_current = True. -/
def get_current_assignment (s : DBState) : Option Assignment :=
  s.assignments.find? (fun a => a.is_current)

/-- The bulk UPDATE in crud.set_current_assignment: every row whose id is
    not the given one gets is_current := False. -/
def demoteOthers (assignment_id : Nat) (l : List Assignment) : List Assignment :=
  l.map (fun a => if a.id == assignment_id then a else { a with is_current := false })

/-- The promotion step of crud.set_current_assignment: the row with the
    given id gets is_current := True. -/
def promoteId (assignment_id : Nat) (l : List Assignment) : List Assignment :=
  l.map (fun a => if a.id == assignment_id then { a with is_current := true } else a)

/-- crud.set_current_assignment: demote all other rows, then look the target
    up and promote it; returns the promoted row, or none when the id does
    not exist (in which case only the demotion has been applied to the
    uncommitted transaction state). -/
def set_current_assignment (s : DBState) (assignment_id : Nat) :
    Option Assignment × DBState :=
  match get_assignment
      { s with assignments := demoteOthers assignment_id s.assignments }
      assignment_id with
  | some _ =>
      (get_assignment
        { s with assignments :=
            promoteId assignment_id (demoteOthers assignment_id s.assignments) }
        assignment_id,
       { s with assignments :=
          promoteId assignment_id (demoteOthers assignment_id s.assignments) })
  | none => (none, { s with assignments := demoteOthers assignment_id s.assignments })

/-- crud.create_assignment: insert a fresh row (store-assigned id), then,
    when it is flagged current, run set_current_assignment on it. -/
def create_assignment (s : DBState) (prompt_text : String) (is_current : Bool) :
    Assignment × DBState :=
  let a : Assignment := ⟨s.next_assignment_id, prompt_text, is_current⟩
  let s1 : DBState :=
    { s with assignments := s.assignments ++ [a],
             next_assignment_id := s.next_assignment_id + 1 }
  if is_current then
    ((set_current_assignment s1 a.id).1.getD a, (set_current_assignment s1 a.id).2)
  else
    (a, s1)

/-- schemas.AssignmentUpdate: the partial-update request body. -/
structure AssignmentUpdate where
  prompt_text : Option String := none
  is_current : Option Bool := none
deriving Repr, DecidableEq

/-- The in-place ORM row mutation as seen by the table: the row with the
    given id is replaced by the mutated row; all other rows are untouched. -/
def replaceById (assignment_id : Nat) (a2 : Assignment) (l : List Assignment) :
    List Assignment :=
  l.map (fun a => if a.id == assignment_id then a2 else a)

/-- The field-by-field mutation step of crud.update_assignment: each
    provided field of the request overwrites the row's field. -/
def applyUpdateFields (u : AssignmentUpdate) (a0 : Assignment) : Assignment :=
  let a1 := match u.prompt_text with
    | some t => { a0 with prompt_text := t }
    | none => a0
  match u.is_current with
  | some b => { a1 with is_current := b }
  | none => a1

/-- crud.update_assignment: look the row up; apply each provided field; when
    is_current is provided as True, additionally run set_current_assignment. -/
def update_assignment (s : DBState) (assignment_id : Nat) (u : AssignmentUpdate) :
    Option Assignment × DBState :=
  match get_assignment s assignment_id with
  | none => (none, s)
  | some a0 =>
    if u.is_current = some true then
      set_current_assignment
        { s with assignments :=
            replaceById assignment_id (applyUpdateFields u a0) s.assignments }
        assignment_id
    else
      (get_assignment
          { s with assignments :=
              replaceById assignment_id (applyUpdateFields u a0) s.assignments }
          assignment_id,
       { s with assignments :=
          replaceById assignment_id (applyUpdateFields u a0) s.assignments })

/-! ## crud.py — submission operations -/

/-- crud.get_submission: select the submission with the given id. -/
def get_submission (s : DBState) (submission_id : Nat) : Option Submission :=
  s.submissions.find? (fun x => x.id == submission_id)

/-- crud.create_submission: insert a fresh submission row. -/
def create_submission (s : DBState) (original_content : String)
    (assignment_id : Option Nat) : Submission × DBState :=
  let sub : Submission := ⟨s.next_submission_id, original_content, none, none, assignment_id⟩
  (sub, { s with submissions := s.submissions ++ [sub],
                 next_submission_id := s.next_submission_id + 1 })

/-- crud.update_submission_question: set generated_question on the row. -/
def update_submission_question (s : DBState) (submission_id : Nat) (question : String) :
    Option Submission × DBState :=
  match get_submission s submission_id with
  | none => (none, s)
  | some sub =>
    let sub2 := { sub with generated_question := some question }
    let subs := s.submissions.map (fun x => if x.id == submission_id then sub2 else x)
    (some sub2, { s with submissions := subs })

/-- crud.update_submission_response: set student_response on the row
    (unconditionally overwriting any prior value). -/
def update_submission_response (s : DBState) (submission_id : Nat) (response : String) :
    Option Submission × DBState :=
  match get_submission s submission_id with
  | none => (none, s)
  | some sub =>
    let sub2 := { sub with student_response := some response }
    let subs := s.submissions.map (fun x => if x.id == submission_id then sub2 else x)
    (some sub2, { s with submissions := subs })

/-! ## crud.py — system prompt operations -/

/-- crud.get_system_prompt: read the row with id 1; when absent, insert it
    with the model's default prompt text within the same call. -/
def get_system_prompt (s : DBState) : SystemPrompt × DBState :=
  match s.system_prompts.find? (fun p => p.id == 1) with
  | some p => (p, s)
  | none =>
      let p : SystemPrompt := ⟨1, DEFAULT_SYSTEM_PROMPT⟩
      (p, { s with system_prompts := s.system_prompts ++ [p] })

/-- crud.update_system_prompt: ensure the singleton exists via
    get_system_prompt, then overwrite its prompt_text. -/
def update_system_prompt (s : DBState) (new_text : String) : SystemPrompt × DBState :=
  let r := get_system_prompt s
  let p2 : SystemPrompt := { r.1 with prompt_text := new_text }
  (p2, { r.2 with system_prompts :=
    r.2.system_prompts.map (fun q => if q.id == 1 then p2 else q) })

/-! ## openrouter_client.py — the follow-up generator -/

/-- openrouter_client.DEFAULT_FALLBACK_QUESTION. -/
def DEFAULT_FALLBACK_QUESTION : String :=
  "Please elaborate on the main point of your submission."

/-- Python str.strip(): remove whitespace from both ends of the string. -/
def pyStrip (s : String) : String :=
  ⟨((s.data.dropWhile Char.isWhitespace).reverse.dropWhile Char.isWhitespace).reverse⟩

/-- The possible outcomes of the single remote HTTP attempt in
    openrouter_client.generate_follow_up_question, one constructor per
    branch of the source: a 200 response whose body carries
    choices[0].message.content (the carried string), a 200 response without
    the expected structure, a non-200 status, and the caught exception
    classes (requests Timeout / ConnectionError, json.JSONDecodeError, and
    the final generic except clause). -/
inductive RemoteOutcome where
  | ok (content : String)
  | malformed
  | statusError
  | timeout
  | connectionError
  | jsonError
  | otherError
deriving Repr, DecidableEq

/-- openrouter_client.generate_follow_up_question.  The settings API key and
    the remote outcome are explicit arguments; the returned Bool records
    whether a network attempt was made (the source's requests.post call).
    The function is total — it never raises — exactly as the source catches
    every failure and returns a string on all paths. -/
def generate_follow_up_question (apiKey : String)
    (submission_content system_prompt : String) (outcome : RemoteOutcome) :
    String × Bool :=
  if apiKey == "" then
    (DEFAULT_FALLBACK_QUESTION, false)
  else
    match outcome with
    | .ok content =>
        let generated_question := pyStrip content
        if generated_question != "" then (generated_question, true)
        else (DEFAULT_FALLBACK_QUESTION, true)
    | _ => (DEFAULT_FALLBACK_QUESTION, true)

/-- The parameter list of openrouter_client.generate_follow_up_question as
    written in the source: def generate_follow_up_question(
    submission_content: str, system_prompt: str). -/
def generate_follow_up_question_params : List String :=
  ["submission_content", "system_prompt"]

/-- Python keyword-argument binding against that parameter list: every
    keyword must name a parameter and both (default-less) parameters must be
    bound, else the call raises TypeError (modelled as none). -/
def bindClientKwargs (kwargs : List (String × String)) : Option (String × String) :=
  if kwargs.all (fun kv => generate_follow_up_question_params.contains kv.1) then
    match kwargs.find? (fun kv => kv.1 == "submission_content"),
          kwargs.find? (fun kv => kv.1 == "system_prompt") with
    | some sc, some sp => some (sc.2, sp.2)
    | _, _ => none
  else
    none

/-- A Python call of openrouter_client.generate_follow_up_question with the
    given keyword arguments: none models the TypeError raised when the
    keywords do not bind to the function's parameters. -/
def call_generate_follow_up_question (apiKey : String) (outcome : RemoteOutcome)
    (kwargs : List (String × String)) : Option (String × Bool) :=
  (bindClientKwargs kwargs).map
    (fun b => generate_follow_up_question apiKey b.1 b.2 outcome)

/-! ## main.py — endpoints (transaction semantics of database.get_db) -/

/-- The client-visible error conditions: HTTPException 404, and any
    server-side fault (HTTPException 500 or an unhandled exception such as
    TypeError, both of which roll the transaction back). -/
inductive ApiError where
  | notFound
  | internalError
deriving Repr, DecidableEq

/-- schemas.QuestionGeneratedResponse. -/
structure QuestionGeneratedResponse where
  submission_id : Nat
  generated_question : String
deriving Repr, DecidableEq

/-- schemas.ResponseVerifiedResponse (message has a fixed default). -/
structure ResponseVerifiedResponse where
  submission_id : Nat
  message : String := "Response recorded successfully."
deriving Repr, DecidableEq

/-- Python truthiness of an Optional[str] column: None and the empty string
    are falsy. -/
def pyTruthy : Option String → Bool
  | none => false
  | some s => s != ""

/-- main.set_current_assignment endpoint: run the crud operation; on None
    raise 404, which makes get_db roll the whole transaction back, so the
    caller-visible state is the prior state. -/
def set_current_endpoint (s : DBState) (assignment_id : Nat) :
    Except ApiError Assignment × DBState :=
  match set_current_assignment s assignment_id with
  | (some a, s2) => (.ok a, s2)
  | (none, _) => (.error .notFound, s)

/-- main.update_assignment endpoint, with the same rollback-on-404 shape. -/
def update_assignment_endpoint (s : DBState) (assignment_id : Nat)
    (u : AssignmentUpdate) : Except ApiError Assignment × DBState :=
  match update_assignment s assignment_id u with
  | (some a, s2) => (.ok a, s2)
  | (none, _) => (.error .notFound, s)

/-- main.create_assignment endpoint (always commits). -/
def create_assignment_endpoint (s : DBState) (prompt_text : String)
    (is_current : Bool) : Assignment × DBState :=
  create_assignment s prompt_text is_current

/-- main.generate_question endpoint.  Looks the submission up (404 when
    absent); returns the stored question unchanged when the truthiness
    guard on generated_question fires; otherwise resolves the assignment
    prompt (with the source's fallback text when the submission is
    unlinked), fetches the system prompt, and performs the source's call
    openrouter_client.generate_follow_up_question(assignment_prompt=...,
    student_response=..., system_prompt=...) with exactly those keyword
    names; a TypeError from that call propagates, get_db rolls back, and
    the caller sees a server fault with the prior state. -/
def generate_question_endpoint (s : DBState) (apiKey : String)
    (outcome : RemoteOutcome) (submission_id : Nat) :
    Except ApiError QuestionGeneratedResponse × DBState :=
  match get_submission s submission_id with
  | none => (.error .notFound, s)
  | some sub =>
    if pyTruthy sub.generated_question then
      (.ok ⟨submission_id, sub.generated_question.getD ""⟩, s)
    else
      match call_generate_follow_up_question apiKey outcome
          [("assignment_prompt",
            match sub.assignment_id.bind (get_assignment s) with
            | some a => a.prompt_text
            | none => "No specific assignment prompt provided."),
           ("student_response", sub.original_content),
           ("system_prompt", (get_system_prompt s).1.prompt_text)] with
      | none => (.error .internalError, s)
      | some (generated_question, _) =>
        match update_submission_question (get_system_prompt s).2 submission_id generated_question with
        | (some _, s2) => (.ok ⟨submission_id, generated_question⟩, s2)
        | (none, _) => (.error .internalError, s)

/-- main.verify_response endpoint: store the student's response; 404 (with
    rollback) when the submission does not exist. -/
def verify_response_endpoint (s : DBState) (submission_id : Nat)
    (student_response : String) : Except ApiError ResponseVerifiedResponse × DBState :=
  match update_submission_response s submission_id student_response with
  | (some _, s2) => (.ok { submission_id := submission_id }, s2)
  | (none, _) => (.error .notFound, s)

/-! ## Operation sequences for the invariant claims -/

/-- One caller-visible assignment operation. -/
inductive AssignOp where
  | createOp (prompt_text : String) (is_current : Bool)
  | updateOp (assignment_id : Nat) (u : AssignmentUpdate)
  | setCurrentOp (assignment_id : Nat)
deriving Repr

/-- Apply one assignment operation at the endpoint (transactional) level. -/
def applyAssignOp (s : DBState) : AssignOp → DBState
  | .createOp t b => (create_assignment_endpoint s t b).2
  | .updateOp aid u => (update_assignment_endpoint s aid u).2
  | .setCurrentOp aid => (set_current_endpoint s aid).2

/-- Apply a sequence of assignment operations in order. -/
def applyAssignOps (s : DBState) (ops : List AssignOp) : DBState :=
  ops.foldl applyAssignOp s

/-- One Prompt Store operation. -/
inductive PromptOp where
  | getOp
  | updateOp (text : String)
deriving Repr

/-- Apply one Prompt Store operation. -/
def applyPromptOp (s : DBState) : PromptOp → DBState
  | .getOp => (get_system_prompt s).2
  | .updateOp t => (update_system_prompt s t).2

/-- Apply a sequence of Prompt Store operations in order. -/
def applyPromptOps (s : DBState) (ops : List PromptOp) : DBState :=
  ops.foldl applyPromptOp s

/-- Number of assignments flagged current. -/
def currentCount (s : DBState) : Nat :=
  s.assignments.countP (fun a => a.is_current)

/-- The singleton-current invariant of the spec. -/
def atMostOneCurrent (s : DBState) : Prop :=
  currentCount s ≤ 1

instance (s : DBState) : Decidable (atMostOneCurrent s) := by
  unfold atMostOneCurrent; infer_instance

/-- Store well-formedness: primary keys are unique and below the store's
    next-id counter (the primary-key constraint of the store). -/
def WF (s : DBState) : Prop :=
  (s.assignments.map (fun a => a.id)).Nodup ∧
    ∀ a ∈ s.assignments, a.id < s.next_assignment_id

instance (s : DBState) : Decidable (WF s) := by
  unfold WF; infer_instance

/-- Number of SystemPrompt rows with the fixed singleton id 1. -/
def promptCount (s : DBState) : Nat :=
  s.system_prompts.countP (fun p => p.id == 1)

/-! ## Helper lemmas -/

/-- In a list of assignments with pairwise distinct ids, at most one row
    matches a given id. -/
theorem countP_id_le_one {l : List Assignment}
    (h : (l.map (fun a => a.id)).Nodup) (aid : Nat) :
    l.countP (fun a => a.id == aid) ≤ 1 := by
  induction l with
  | nil => simp
  | cons x xs ih =>
    rw [List.map_cons, List.nodup_cons] at h
    rw [List.countP_cons]
    by_cases hx : (x.id == aid) = true
    · have hx' : x.id = aid := by simpa using hx
      have hz : xs.countP (fun a => a.id == aid) = 0 := by
        rw [List.countP_eq_zero]
        intro b hb hbeq
        have hb' : b.id = aid := by simpa using hbeq
        apply h.1
        rw [hx', ← hb']
        exact List.mem_map_of_mem _ hb
      rw [hz]
      simp [hx]
    · simp only [hx, if_false]
      simpa using ih h.2

/-- If at most one row matches a Boolean predicate, any two matching members
    are equal. -/
theorem countP_le_one_unique {α : Type} {p : α → Bool} :
    ∀ {l : List α}, l.countP p ≤ 1 →
      ∀ {a : α}, a ∈ l → p a = true → ∀ {b : α}, b ∈ l → p b = true → a = b := by
  intro l
  induction l with
  | nil => intro _ a ha; exact absurd ha (List.not_mem_nil a)
  | cons x xs ih =>
    intro h a ha hpa b hb hpb
    rw [List.countP_cons] at h
    rcases List.mem_cons.mp ha with rfl | ha'
    · rcases List.mem_cons.mp hb with rfl | hb'
      · rfl
      · exfalso
        have h1 : 0 < xs.countP p := List.countP_pos_iff.mpr ⟨b, hb', hpb⟩
        rw [if_pos hpa] at h
        omega
    · rcases List.mem_cons.mp hb with rfl | hb'
      · exfalso
        have h1 : 0 < xs.countP p := List.countP_pos_iff.mpr ⟨a, ha', hpa⟩
        rw [if_pos hpb] at h
        omega
      · exact ih (by omega) ha' hpa hb' hpb

/-- Mapping an id-preserving function over the rows leaves the id column
    unchanged. -/
theorem map_id_eq {l : List Assignment} {f : Assignment → Assignment}
    (hf : ∀ a ∈ l, (f a).id = a.id) :
    (l.map f).map (fun a => a.id) = l.map (fun a => a.id) := by
  rw [List.map_map]
  exact List.map_congr_left (fun a ha => hf a ha)

theorem demoteOthers_ids (aid : Nat) (l : List Assignment) :
    (demoteOthers aid l).map (fun a => a.id) = l.map (fun a => a.id) := by
  unfold demoteOthers
  apply map_id_eq
  intro a _
  by_cases h : (a.id == aid) = true <;> simp [h]

theorem promoteId_ids (aid : Nat) (l : List Assignment) :
    (promoteId aid l).map (fun a => a.id) = l.map (fun a => a.id) := by
  unfold promoteId
  apply map_id_eq
  intro a _
  by_cases h : (a.id == aid) = true <;> simp [h]

/-- After demote-then-promote, a row is current exactly when its id is the
    promoted id. -/
theorem countP_promote_demote (aid : Nat) (l : List Assignment) :
    (promoteId aid (demoteOthers aid l)).countP (fun a => a.is_current)
      = l.countP (fun a => a.id == aid) := by
  unfold promoteId demoteOthers
  rw [List.map_map, List.countP_map]
  apply List.countP_congr
  intro a _
  by_cases h : (a.id == aid) = true <;> simp [Function.comp, h]

/-- When the demoted table has no row with the promoted id, every row of it
    is non-current. -/
theorem countP_demote_eq_zero {aid : Nat} {l : List Assignment}
    (h : (demoteOthers aid l).find? (fun a => a.id == aid) = none) :
    (demoteOthers aid l).countP (fun a => a.is_current) = 0 := by
  unfold demoteOthers at h ⊢
  rw [List.countP_map, List.countP_eq_zero]
  intro a ha
  have hne := List.find?_eq_none.mp h _ (List.mem_map_of_mem _ ha)
  by_cases hc : (a.id == aid) = true
  · exact absurd (by simpa [hc] using hc) hne
  · simp [Function.comp, hc]

/-- The ids of a state are unchanged by set_current_assignment. -/
theorem set_current_assignment_ids (s : DBState) (aid : Nat) :
    ((set_current_assignment s aid).2).assignments.map (fun a => a.id)
      = s.assignments.map (fun a => a.id) := by
  unfold set_current_assignment
  cases h : get_assignment
      { s with assignments := demoteOthers aid s.assignments } aid with
  | none => simp [demoteOthers_ids]
  | some a => simp [promoteId_ids, demoteOthers_ids]

/-- The id counter is unchanged by set_current_assignment. -/
theorem set_current_assignment_next (s : DBState) (aid : Nat) :
    ((set_current_assignment s aid).2).next_assignment_id = s.next_assignment_id := by
  unfold set_current_assignment
  cases h : get_assignment
      { s with assignments := demoteOthers aid s.assignments } aid with
  | none => rfl
  | some a => rfl

/-- Other tables are unchanged by set_current_assignment. -/
theorem set_current_assignment_frame (s : DBState) (aid : Nat) :
    ((set_current_assignment s aid).2).submissions = s.submissions ∧
    ((set_current_assignment s aid).2).system_prompts = s.system_prompts := by
  unfold set_current_assignment
  cases h : get_assignment
      { s with assignments := demoteOthers aid s.assignments } aid with
  | none => exact ⟨rfl, rfl⟩
  | some a => exact ⟨rfl, rfl⟩

/-- After a crud-level set_current_assignment on a well-keyed table, at most
    one row is current. -/
theorem set_current_assignment_le_one {s : DBState}
    (h : (s.assignments.map (fun a => a.id)).Nodup) (aid : Nat) :
    currentCount (set_current_assignment s aid).2 ≤ 1 := by
  unfold set_current_assignment currentCount
  cases hfind : get_assignment
      { s with assignments := demoteOthers aid s.assignments } aid with
  | none =>
    have h0 : (demoteOthers aid s.assignments).countP (fun a => a.is_current) = 0 :=
      countP_demote_eq_zero hfind
    simpa [h0] using Nat.zero_le 1
  | some a =>
    simpa [countP_promote_demote] using countP_id_le_one h aid

/-- An id-bound transfers along an equality of id columns. -/
theorem bound_of_ids_eq {l l' : List Assignment} {n : Nat}
    (hids : l'.map (fun a => a.id) = l.map (fun a => a.id))
    (h : ∀ a ∈ l, a.id < n) : ∀ a ∈ l', a.id < n := by
  intro a ha
  have hmem : a.id ∈ l'.map (fun a => a.id) := List.mem_map_of_mem _ ha
  rw [hids] at hmem
  rcases List.mem_map.mp hmem with ⟨b, hb, hba⟩
  rw [← hba]
  exact h b hb

/-- find? on the id column is still none after an id-preserving map. -/
theorem find?_id_map_none {l : List Assignment} {f : Assignment → Assignment}
    (hf : ∀ a ∈ l, (f a).id = a.id) {aid : Nat}
    (h : l.find? (fun a => a.id == aid) = none) :
    (l.map f).find? (fun a => a.id == aid) = none := by
  rw [List.find?_eq_none] at h ⊢
  intro x hx
  rcases List.mem_map.mp hx with ⟨a, ha, rfl⟩
  rw [hf a ha]
  exact h a ha

theorem applyUpdateFields_id (u : AssignmentUpdate) (a0 : Assignment) :
    (applyUpdateFields u a0).id = a0.id := by
  rcases u with ⟨pt, ic⟩
  cases pt <;> cases ic <;> rfl

theorem applyUpdateFields_flag_none {u : AssignmentUpdate} (a0 : Assignment)
    (h : u.is_current = none) :
    (applyUpdateFields u a0).is_current = a0.is_current := by
  rcases u with ⟨pt, ic⟩
  simp only at h
  subst h
  cases pt <;> rfl

theorem applyUpdateFields_flag_some {u : AssignmentUpdate} (a0 : Assignment)
    {b : Bool} (h : u.is_current = some b) :
    (applyUpdateFields u a0).is_current = b := by
  rcases u with ⟨pt, ic⟩
  simp only at h
  subst h
  cases pt <;> rfl

/-- WF is preserved by set_current_assignment. -/
theorem WF_set_current {s : DBState} (aid : Nat) (h : WF s) :
    WF (set_current_assignment s aid).2 := by
  refine ⟨?_, ?_⟩
  · rw [set_current_assignment_ids]
    exact h.1
  · rw [set_current_assignment_next]
    exact bound_of_ids_eq (set_current_assignment_ids s aid) h.2

/-- Appending the fresh row of create_assignment preserves WF. -/
theorem WF_append {s : DBState} (t : String) (b : Bool) (h : WF s) :
    WF { s with
      assignments := s.assignments ++ [⟨s.next_assignment_id, t, b⟩],
      next_assignment_id := s.next_assignment_id + 1 } := by
  refine ⟨?_, ?_⟩
  · rw [List.map_append, List.nodup_append]
    refine ⟨h.1, by simp, ?_⟩
    intro x hx hx2
    simp only [List.map_cons, List.map_nil, List.mem_cons, List.not_mem_nil,
      or_false] at hx2
    rcases List.mem_map.mp hx with ⟨a, ha, rfl⟩
    have := h.2 a ha
    omega
  · intro a ha
    rcases List.mem_append.mp ha with ha | ha
    · have := h.2 a ha
      simp only
      omega
    · simp only [List.mem_cons, List.not_mem_nil, or_false] at ha
      subst ha
      simp

/-- WF is preserved by create_assignment. -/
theorem WF_create {s : DBState} (t : String) (b : Bool) (h : WF s) :
    WF (create_assignment s t b).2 := by
  unfold create_assignment
  cases b with
  | true =>
    rw [if_pos rfl]
    exact WF_set_current _ (WF_append t true h)
  | false =>
    rw [if_neg (by simp)]
    exact WF_append t false h

/-- WF is preserved by update_assignment. -/
theorem WF_update {s : DBState} (aid : Nat) (u : AssignmentUpdate) (h : WF s) :
    WF (update_assignment s aid u).2 := by
  unfold update_assignment
  cases hget : get_assignment s aid with
  | none => exact h
  | some a0 =>
    have ha0 : a0.id = aid := by simpa using List.find?_some hget
    have hf : ∀ a ∈ s.assignments,
        ((fun a => if a.id == aid then applyUpdateFields u a0 else a) a).id = a.id := by
      intro a _
      by_cases hc : (a.id == aid) = true
      · have : a.id = aid := by simpa using hc
        simp [hc, applyUpdateFields_id, ha0, this]
      · simp [hc]
    have hWF1 : WF { s with assignments := replaceById aid (applyUpdateFields u a0) s.assignments } := by
      refine ⟨?_, ?_⟩
      · rw [replaceById, map_id_eq hf]
        exact h.1
      · exact bound_of_ids_eq (by rw [replaceById, map_id_eq hf]) h.2
    dsimp only
    by_cases hcur : u.is_current = some true
    · rw [if_pos hcur]
      exact WF_set_current _ hWF1
    · rw [if_neg hcur]
      exact hWF1

/-- WF is preserved by every endpoint-level assignment operation. -/
theorem WF_applyAssignOp {s : DBState} (op : AssignOp) (h : WF s) :
    WF (applyAssignOp s op) := by
  cases op with
  | createOp t b => exact WF_create t b h
  | updateOp aid u =>
    unfold applyAssignOp update_assignment_endpoint
    dsimp only
    cases hup : update_assignment s aid u with
    | mk o s2 =>
      cases o with
      | none => exact h
      | some a =>
        have hthis := WF_update aid u h
        rw [hup] at hthis
        exact hthis
  | setCurrentOp aid =>
    unfold applyAssignOp set_current_endpoint
    dsimp only
    cases hsc : set_current_assignment s aid with
    | mk o s2 =>
      cases o with
      | none => exact h
      | some a =>
        have hthis := WF_set_current (s := s) aid h
        rw [hsc] at hthis
        exact hthis

/-- The current-count stays at most one across create_assignment. -/
theorem count_create {s : DBState} (t : String) (b : Bool) (hWF : WF s)
    (hc : currentCount s ≤ 1) : currentCount (create_assignment s t b).2 ≤ 1 := by
  unfold create_assignment
  cases b with
  | true =>
    rw [if_pos rfl]
    exact set_current_assignment_le_one (WF_append t true hWF).1 _
  | false =>
    rw [if_neg (by simp)]
    unfold currentCount at hc ⊢
    simp only [List.countP_append]
    simpa using hc

/-- The current-count stays at most one across update_assignment. -/
theorem count_update {s : DBState} (aid : Nat) (u : AssignmentUpdate)
    (hWF : WF s) (hc : currentCount s ≤ 1) :
    currentCount (update_assignment s aid u).2 ≤ 1 := by
  unfold update_assignment
  cases hget : get_assignment s aid with
  | none => exact hc
  | some a0 =>
    have ha0 : a0.id = aid := by simpa using List.find?_some hget
    have ha0mem : a0 ∈ s.assignments := List.mem_of_find?_eq_some hget
    have hf : ∀ a ∈ s.assignments,
        ((fun a => if a.id == aid then applyUpdateFields u a0 else a) a).id = a.id := by
      intro a _
      by_cases hcid : (a.id == aid) = true
      · have : a.id = aid := by simpa using hcid
        simp [hcid, applyUpdateFields_id, ha0, this]
      · simp [hcid]
    dsimp only
    by_cases hcur : u.is_current = some true
    · rw [if_pos hcur]
      apply set_current_assignment_le_one
      rw [replaceById, map_id_eq hf]
      exact hWF.1
    · rw [if_neg hcur]
      unfold currentCount at hc ⊢
      simp only [replaceById]
      rw [List.countP_map]
      refine Nat.le_trans (List.countP_mono_left ?_) hc
      intro a ha hpa
      by_cases hcid : (a.id == aid) = true
      · have haid : a.id = aid := by simpa using hcid
        simp only [Function.comp, hcid, if_true] at hpa
        cases hic : u.is_current with
        | some bb =>
          have hbb : bb = false := by
            cases bb
            · rfl
            · exact absurd hic hcur
          rw [applyUpdateFields_flag_some a0 hic, hbb] at hpa
          exact absurd hpa (by simp)
        | none =>
          rw [applyUpdateFields_flag_none a0 hic] at hpa
          have : a = a0 :=
            List.inj_on_of_nodup_map hWF.1 ha ha0mem (by rw [haid, ha0])
          rw [this]
          exact hpa
      · simpa [Function.comp, hcid] using hpa

/-- The current-count stays at most one across every endpoint-level
    assignment operation. -/
theorem count_applyAssignOp {s : DBState} (op : AssignOp)
    (hWF : WF s) (hc : currentCount s ≤ 1) :
    currentCount (applyAssignOp s op) ≤ 1 := by
  cases op with
  | createOp t b => exact count_create t b hWF hc
  | updateOp aid u =>
    unfold applyAssignOp update_assignment_endpoint
    dsimp only
    cases hup : update_assignment s aid u with
    | mk o s2 =>
      cases o with
      | none => exact hc
      | some a =>
        have hthis := count_update aid u hWF hc
        rw [hup] at hthis
        exact hthis
  | setCurrentOp aid =>
    unfold applyAssignOp set_current_endpoint
    dsimp only
    cases hsc : set_current_assignment s aid with
    | mk o s2 =>
      cases o with
      | none => exact hc
      | some a =>
        have hthis := set_current_assignment_le_one hWF.1 aid
        rw [hsc] at hthis
        exact hthis

/-- WF together with the current-count bound is preserved along any
    sequence of endpoint-level assignment operations. -/
theorem inv_applyAssignOps (ops : List AssignOp) :
    ∀ s : DBState, WF s → currentCount s ≤ 1 →
      WF (applyAssignOps s ops) ∧ currentCount (applyAssignOps s ops) ≤ 1 := by
  induction ops with
  | nil => exact fun s hWF hc => ⟨hWF, hc⟩
  | cons op rest ih =>
    intro s hWF hc
    have h1 := WF_applyAssignOp op hWF
    have h2 := count_applyAssignOp op hWF hc
    exact ih (applyAssignOp s op) h1 h2

/-! ## Sample states for witnesses -/

/-- A sample state with one current and one non-current assignment. -/
def sampleAssignState : DBState :=
  { assignments := [⟨1, "Explain photosynthesis", true⟩, ⟨2, "Describe mitosis", false⟩],
    submissions := [], system_prompts := [],
    next_assignment_id := 3, next_submission_id := 1 }

/-- A sample state with one submission that already has a question and a
    previously stored response. -/
def sampleSubState : DBState :=
  { assignments := [⟨1, "Explain photosynthesis", true⟩],
    submissions := [⟨1, "Plants use sunlight.", some "Why?", some "Old answer", some 1⟩],
    system_prompts := [], next_assignment_id := 2, next_submission_id := 2 }

/-- A sample state holding one fresh submission (no question yet) linked to
    the current assignment. -/
def sampleFreshState : DBState :=
  { assignments := [⟨1, "Explain photosynthesis", true⟩],
    submissions := [⟨1, "Plants use sunlight.", none, none, some 1⟩],
    system_prompts := [⟨1, DEFAULT_SYSTEM_PROMPT⟩],
    next_assignment_id := 2, next_submission_id := 2 }

/-- A sample state holding one fresh, unlinked submission. -/
def sampleFreshState2 : DBState :=
  { assignments := [], submissions := [⟨2, "The sky is blue.", none, none, none⟩],
    system_prompts := [], next_assignment_id := 1, next_submission_id := 3 }

/-- The generator never returns the empty string: the success branch hands
    back stripped remote text only when it is non-empty, every other branch
    hands back the non-empty fixed fallback. -/
theorem generate_follow_up_question_ne_empty (apiKey sc sp : String)
    (outcome : RemoteOutcome) :
    (generate_follow_up_question apiKey sc sp outcome).1 ≠ "" := by
  unfold generate_follow_up_question
  by_cases hk : (apiKey == "") = true
  · rw [if_pos hk]
    decide
  · rw [if_neg hk]
    cases outcome with
    | ok content =>
      dsimp only
      by_cases hq : (pyStrip content != "") = true
      · rw [if_pos hq]
        simpa using hq
      · rw [if_neg hq]
        decide
    | malformed => decide
    | statusError => decide
    | timeout => decide
    | connectionError => decide
    | jsonError => decide
    | otherError => decide

/-- On every outcome other than a well-formed 200 response, the generator
    returns the fixed fallback. -/
theorem generator_fallback_of_not_ok (apiKey sc sp : String) (o : RemoteOutcome)
    (ho : ∀ content, o ≠ RemoteOutcome.ok content) :
    (generate_follow_up_question apiKey sc sp o).1 = DEFAULT_FALLBACK_QUESTION := by
  unfold generate_follow_up_question
  by_cases hk : (apiKey == "") = true
  · rw [if_pos hk]
  · rw [if_neg hk]
    cases o with
    | ok content => exact absurd rfl (ho content)
    | malformed => rfl
    | statusError => rfl
    | timeout => rfl
    | connectionError => rfl
    | jsonError => rfl
    | otherError => rfl

/-- The system prompt lookup never touches the submissions table. -/
theorem get_system_prompt_submissions (s : DBState) :
    (get_system_prompt s).2.submissions = s.submissions := by
  unfold get_system_prompt
  cases h : s.system_prompts.find? (fun p => p.id == 1) <;> rfl

/-- Persisting a non-empty question preserves the all-stored-questions-
    non-empty invariant. -/
theorem update_submission_question_nonempty (s : DBState) (sid : Nat) (q : String)
    (hq : q ≠ "")
    (hs : ∀ sub ∈ s.submissions, sub.generated_question ≠ some "") :
    ∀ sub ∈ (update_submission_question s sid q).2.submissions,
      sub.generated_question ≠ some "" := by
  unfold update_submission_question
  cases hget : get_submission s sid with
  | none => exact hs
  | some sub0 =>
    dsimp only
    intro sub hmem
    rcases List.mem_map.mp hmem with ⟨a, ha, rfl⟩
    by_cases hcid : (a.id == sid) = true
    · rw [if_pos hcid]
      intro hcontra
      have : q = "" := by simpa using hcontra
      exact hq this
    · rw [if_neg hcid]
      exact hs a ha

/-- The generate_question endpoint preserves the invariant that no stored
    generated_question is the empty string. -/
theorem generate_question_endpoint_nonempty (s : DBState) (apiKey : String)
    (outcome : RemoteOutcome) (sid : Nat)
    (hs : ∀ sub ∈ s.submissions, sub.generated_question ≠ some "") :
    ∀ sub ∈ (generate_question_endpoint s apiKey outcome sid).2.submissions,
      sub.generated_question ≠ some "" := by
  unfold generate_question_endpoint
  split
  · exact hs
  · split
    · exact hs
    · split
      · exact hs
      next q b hcall =>
        split
        next val s2 hupd =>
          obtain ⟨x, y, hf⟩ :
              ∃ x y, generate_follow_up_question apiKey x y outcome = (q, b) := by
            simp only [call_generate_follow_up_question] at hcall
            rcases Option.map_eq_some'.mp hcall with ⟨bnd, hbnd, hf⟩
            exact ⟨bnd.1, bnd.2, hf⟩
          have hqe : (generate_follow_up_question apiKey x y outcome).1 = q := by
            rw [hf]
          have hqne : q ≠ "" :=
            hqe ▸ generate_follow_up_question_ne_empty apiKey x y outcome
          have hs2 : ∀ sub ∈ (get_system_prompt s).2.submissions,
              sub.generated_question ≠ some "" := by
            rw [get_system_prompt_submissions]
            exact hs
          have hres := update_submission_question_nonempty (get_system_prompt s).2 sid q hqne hs2
          rw [hupd] at hres
          exact hres
        next s3 hupd => exact hs

/-- The row get_system_prompt returns always carries the fixed id 1. -/
theorem get_system_prompt_id (s : DBState) : (get_system_prompt s).1.id = 1 := by
  unfold get_system_prompt
  cases h : s.system_prompts.find? (fun p => p.id == 1) with
  | none => rfl
  | some p =>
    have hp := List.find?_some h
    simpa using hp

/-- get_system_prompt leaves exactly one id-1 row when at most one was
    there. -/
theorem promptCount_get {s : DBState} (hc : promptCount s ≤ 1) :
    promptCount (get_system_prompt s).2 = 1 := by
  unfold promptCount get_system_prompt at *
  cases h : s.system_prompts.find? (fun p => p.id == 1) with
  | none =>
    dsimp only
    rw [List.countP_append]
    have h0 : s.system_prompts.countP (fun p => p.id == 1) = 0 := by
      rw [List.countP_eq_zero]
      exact List.find?_eq_none.mp h
    rw [h0]
    rfl
  | some pr =>
    dsimp only
    have hmem := List.mem_of_find?_eq_some h
    have hbeq := List.find?_some h
    have h1 : 0 < s.system_prompts.countP (fun p => p.id == 1) :=
      List.countP_pos_iff.mpr ⟨pr, hmem, hbeq⟩
    omega

/-- update_system_prompt leaves exactly one id-1 row when at most one was
    there. -/
theorem promptCount_update {s : DBState} (t : String) (hc : promptCount s ≤ 1) :
    promptCount (update_system_prompt s t).2 = 1 := by
  have h1 := promptCount_get hc
  unfold update_system_prompt
  unfold promptCount at h1 ⊢
  dsimp only
  rw [List.countP_map]
  refine Eq.trans (List.countP_congr ?_) h1
  intro q hq
  by_cases hcid : (q.id == 1) = true
  · simp [Function.comp, hcid, get_system_prompt_id]
  · simp [Function.comp, hcid]

/-- Every Prompt Store operation leaves exactly one id-1 row when at most
    one was there. -/
theorem promptCount_applyPromptOp {s : DBState} (op : PromptOp)
    (hc : promptCount s ≤ 1) : promptCount (applyPromptOp s op) = 1 := by
  cases op with
  | getOp => exact promptCount_get hc
  | updateOp t => exact promptCount_update t hc

/-- Exactly-one-id-1-row is preserved along Prompt Store sequences. -/
theorem promptCount_applyPromptOps (ops : List PromptOp) :
    ∀ s : DBState, promptCount s = 1 → promptCount (applyPromptOps s ops) = 1 := by
  induction ops with
  | nil => exact fun s h => h
  | cons op rest ih =>
    intro s h
    exact ih (applyPromptOp s op) (promptCount_applyPromptOp op (by omega))

/-- Replacing the found row by a row with the same matching id keeps find?
    pointed at it. -/
theorem find?_replaceById {l : List Assignment} {aid : Nat} {a0 b : Assignment}
    (h : l.find? (fun a => a.id == aid) = some a0) (hb : (b.id == aid) = true) :
    (replaceById aid b l).find? (fun a => a.id == aid) = some b := by
  unfold replaceById
  induction l with
  | nil => simp at h
  | cons x xs ih =>
    rw [List.map_cons]
    by_cases hx : (x.id == aid) = true
    · rw [if_pos hx]
      exact List.find?_cons_of_pos _ hb
    · rw [if_neg hx]
      have hxf : (x.id == aid) = false := by simpa using hx
      rw [List.find?_cons, hxf] at h
      rw [List.find?_cons, hxf]
      exact ih h

/-! ## Claim theorems -/

/-- C1: for every sequence of create / update / set_current assignment
    operations, started from a well-keyed state with at most one current
    assignment, after each completed operation at most one assignment has
    is_current = true (every prefix of a sequence is itself a sequence, so
    quantifying over all sequences covers each intermediate state). -/
theorem claim_C1_at_most_one_current (ops : List AssignOp) (s : DBState)
    (hWF : WF s) (hc : atMostOneCurrent s) :
    atMostOneCurrent (applyAssignOps s ops) :=
  (inv_applyAssignOps ops s hWF hc).2

/-- Witness for C1: a concrete run of five operations, including two
    creations with is_current = true, a failing set_current and a demoting
    update, keeps at most one assignment current. -/
theorem claim_C1_at_most_one_current_witness :
    WF ⟨[], [], [], 1, 1⟩ ∧ atMostOneCurrent ⟨[], [], [], 1, 1⟩ ∧
      atMostOneCurrent (applyAssignOps ⟨[], [], [], 1, 1⟩
        [AssignOp.createOp "Explain photosynthesis" true,
         AssignOp.createOp "Describe mitosis" true,
         AssignOp.setCurrentOp 1,
         AssignOp.updateOp 2 ⟨none, some false⟩,
         AssignOp.setCurrentOp 99]) :=
  ⟨by decide, by decide,
   claim_C1_at_most_one_current _ _ (by decide) (by decide)⟩

/-- C2: set_current on an id that refers to no existing assignment fails
    with NotFound, and the caller-visible state after the rolled-back
    transaction is exactly the prior state, so the previously current
    assignment (if any) is still current and no demotion side effect
    survives. -/
theorem claim_C2_set_current_missing_id (s : DBState) (aid : Nat)
    (h : get_assignment s aid = none) :
    set_current_endpoint s aid = (Except.error ApiError.notFound, s) := by
  have hd : (demoteOthers aid s.assignments).find? (fun a => a.id == aid) = none := by
    unfold demoteOthers
    apply find?_id_map_none _ h
    intro a _
    by_cases hcid : (a.id == aid) = true <;> simp [hcid]
  unfold set_current_endpoint set_current_assignment get_assignment
  dsimp only
  rw [hd]

/-- Witness for C2: id 99 exists in no row of the sample state; the call
    fails with NotFound and returns the state unchanged, in particular
    assignment 1 is still the current one. -/
theorem claim_C2_set_current_missing_id_witness :
    get_assignment sampleAssignState 99 = none ∧
      set_current_endpoint sampleAssignState 99 =
        (Except.error ApiError.notFound, sampleAssignState) ∧
      get_current_assignment
        (set_current_endpoint sampleAssignState 99).2 =
          some ⟨1, "Explain photosynthesis", true⟩ :=
  ⟨rfl, claim_C2_set_current_missing_id sampleAssignState 99 rfl, rfl⟩

/-- C7: record_response fails with NotFound (state unchanged) when the
    submission does not exist; on an existing submission it always
    succeeds, unconditionally overwrites any previously stored
    student_response with the new text — regardless of whether a
    generated_question exists — and returns the acknowledgement carrying
    submission_id. -/
theorem claim_C7_record_response (s : DBState) (sid : Nat) (resp : String) :
    (get_submission s sid = none →
      verify_response_endpoint s sid resp = (Except.error ApiError.notFound, s)) ∧
    (∀ sub, get_submission s sid = some sub →
      verify_response_endpoint s sid resp =
        (Except.ok { submission_id := sid },
         { s with submissions := s.submissions.map (fun x => if x.id == sid then { sub with student_response := some resp } else x) })) := by
  constructor
  · intro h
    unfold verify_response_endpoint update_submission_response
    rw [h]
  · intro sub h
    unfold verify_response_endpoint update_submission_response
    rw [h]

/-- C5: the generator is total — its type returns a string for every input
    and every remote outcome, so no error can propagate — and on each
    failure mode of the remote call (timeout, connection failure, malformed
    JSON, any other exception, a 200 body without the expected structure, a
    non-success status, absent credentials, and empty generated text after
    stripping) the returned string is exactly the fixed fallback. -/
theorem claim_C5_generator_fallback (apiKey sc sp c : String) (outcome : RemoteOutcome) :
    (generate_follow_up_question apiKey sc sp RemoteOutcome.timeout).1 = DEFAULT_FALLBACK_QUESTION ∧
    (generate_follow_up_question apiKey sc sp RemoteOutcome.connectionError).1 = DEFAULT_FALLBACK_QUESTION ∧
    (generate_follow_up_question apiKey sc sp RemoteOutcome.jsonError).1 = DEFAULT_FALLBACK_QUESTION ∧
    (generate_follow_up_question apiKey sc sp RemoteOutcome.otherError).1 = DEFAULT_FALLBACK_QUESTION ∧
    (generate_follow_up_question apiKey sc sp RemoteOutcome.malformed).1 = DEFAULT_FALLBACK_QUESTION ∧
    (generate_follow_up_question apiKey sc sp RemoteOutcome.statusError).1 = DEFAULT_FALLBACK_QUESTION ∧
    (generate_follow_up_question "" sc sp outcome).1 = DEFAULT_FALLBACK_QUESTION ∧
    (pyStrip c = "" →
      (generate_follow_up_question apiKey sc sp (RemoteOutcome.ok c)).1 = DEFAULT_FALLBACK_QUESTION) := by
  refine ⟨generator_fallback_of_not_ok apiKey sc sp _ (by intro content h; cases h),
    generator_fallback_of_not_ok apiKey sc sp _ (by intro content h; cases h),
    generator_fallback_of_not_ok apiKey sc sp _ (by intro content h; cases h),
    generator_fallback_of_not_ok apiKey sc sp _ (by intro content h; cases h),
    generator_fallback_of_not_ok apiKey sc sp _ (by intro content h; cases h),
    generator_fallback_of_not_ok apiKey sc sp _ (by intro content h; cases h),
    rfl, ?_⟩
  intro h
  unfold generate_follow_up_question
  by_cases hk : (apiKey == "") = true
  · rw [if_pos hk]
  · rw [if_neg hk]
    dsimp only
    rw [h]
    rfl

/-- Witness for C5: with a present key, a timeout and a whitespace-only
    generated text both produce the fixed fallback. -/
theorem claim_C5_generator_fallback_witness :
    pyStrip "   " = "" ∧
      (generate_follow_up_question "sk-test" "essay" "sys" (RemoteOutcome.ok "   ")).1 =
        DEFAULT_FALLBACK_QUESTION ∧
      (generate_follow_up_question "sk-test" "essay" "sys" RemoteOutcome.timeout).1 =
        DEFAULT_FALLBACK_QUESTION :=
  ⟨by decide,
   (claim_C5_generator_fallback "sk-test" "essay" "sys" "   " RemoteOutcome.timeout).2.2.2.2.2.2.2 (by decide),
   (claim_C5_generator_fallback "sk-test" "essay" "sys" "   " RemoteOutcome.timeout).1⟩

/-- C6: with an absent bearer credential (the settings default is the empty
    string, falsy in Python), the generator returns the fixed fallback
    immediately for every input, and the network-attempt flag is false — no
    network attempt is made, whatever the remote would have answered. -/
theorem claim_C6_no_key_no_network (sc sp : String) (outcome : RemoteOutcome) :
    generate_follow_up_question "" sc sp outcome = (DEFAULT_FALLBACK_QUESTION, false) := rfl

/-- C10: (a) the generator's returned string is never empty — the success
    branch returns stripped remote text only when non-empty and every
    failure branch returns the non-empty fixed fallback; (b) hence the
    Python truthiness guard on generated_question coincides with the field
    being set whenever no stored question is the empty string; (c) the
    generate_question endpoint preserves that no stored generated_question
    is the empty string, so the set-at-most-once guard cannot be defeated
    by a stored empty-string question. -/
theorem claim_C10_persisted_question_nonempty (apiKey sc sp : String)
    (outcome : RemoteOutcome) (s : DBState) (sid : Nat) :
    ((generate_follow_up_question apiKey sc sp outcome).1 ≠ "") ∧
    (∀ gq : Option String, gq ≠ some "" → pyTruthy gq = gq.isSome) ∧
    ((∀ sub ∈ s.submissions, sub.generated_question ≠ some "") →
      ∀ sub ∈ (generate_question_endpoint s apiKey outcome sid).2.submissions,
        sub.generated_question ≠ some "") := by
  refine ⟨generate_follow_up_question_ne_empty apiKey sc sp outcome, ?_,
    generate_question_endpoint_nonempty s apiKey outcome sid⟩
  intro gq hgq
  cases gq with
  | none => rfl
  | some v =>
    have hv : v ≠ "" := by
      intro hcontra
      exact hgq (by rw [hcontra])
    simp [pyTruthy, hv]

/-- Witness for C10 at concrete inputs: a malformed-response outcome yields
    a non-empty string, the truthiness guard agrees with isSome on a set
    non-empty question, and the endpoint keeps the sample state's stored
    questions non-empty. -/
theorem claim_C10_persisted_question_nonempty_witness :
    ((generate_follow_up_question "sk-w" "essay" "sys" RemoteOutcome.malformed).1 ≠ "") ∧
    pyTruthy (some "Why?") = (some "Why?" : Option String).isSome ∧
    (∀ sub ∈ (generate_question_endpoint sampleSubState "sk-w" (RemoteOutcome.ok "Q?") 1).2.submissions,
      sub.generated_question ≠ some "") :=
  ⟨(claim_C10_persisted_question_nonempty "sk-w" "essay" "sys" RemoteOutcome.malformed sampleSubState 1).1,
   (claim_C10_persisted_question_nonempty "sk-w" "essay" "sys" RemoteOutcome.malformed sampleSubState 1).2.1
     (some "Why?") (by decide),
   (claim_C10_persisted_question_nonempty "sk-w" "essay" "sys" (RemoteOutcome.ok "Q?") sampleSubState 1).2.2
     (by decide)⟩

/-- C3 is violated by the code (code bug): main.generate_question calls
    openrouter_client.generate_follow_up_question with the keyword
    arguments assignment_prompt, student_response and system_prompt, but
    the function's parameters are submission_content and system_prompt, so
    Python raises TypeError before the generator runs; evaluated on a fresh
    linked submission the endpoint yields the server fault and leaves the
    state unchanged — nothing is generated, persisted or returned.  The
    first conjunct exhibits the failed keyword binding itself. -/
theorem claim_C3_generate_question_type_error :
    bindClientKwargs
        [("assignment_prompt", "Explain photosynthesis"),
         ("student_response", "Plants use sunlight."),
         ("system_prompt", DEFAULT_SYSTEM_PROMPT)] = none ∧
    generate_question_endpoint sampleFreshState "sk-test"
        (RemoteOutcome.ok "What is chlorophyll?") 1 =
      (Except.error ApiError.internalError, sampleFreshState) :=
  ⟨rfl, rfl⟩

/-- C4 is violated by the code (code bug): on a fresh submission the first
    generate_question call raises the TypeError of the mismatched keyword
    call, so it fails with a server fault instead of returning a question;
    the second call, run on the rolled-back state, fails identically, and
    the stored generated_question is still unset after both calls — the
    idempotency contract cannot be met because no call ever returns a
    generated_question for a fresh submission. -/
theorem claim_C4_generate_question_not_idempotent :
    (generate_question_endpoint sampleFreshState2 "sk-live" (RemoteOutcome.ok "Q one?") 2 =
      (Except.error ApiError.internalError, sampleFreshState2)) ∧
    (generate_question_endpoint
        (generate_question_endpoint sampleFreshState2 "sk-live" (RemoteOutcome.ok "Q one?") 2).2
        "sk-live" (RemoteOutcome.ok "Q two?") 2 =
      (Except.error ApiError.internalError, sampleFreshState2)) ∧
    ((get_submission
        (generate_question_endpoint
          (generate_question_endpoint sampleFreshState2 "sk-live" (RemoteOutcome.ok "Q one?") 2).2
          "sk-live" (RemoteOutcome.ok "Q two?") 2).2 2).bind
        (fun sub => sub.generated_question) = none) :=
  ⟨rfl, rfl, rfl⟩

/-- Witness for C7: recording on missing id 7 fails with NotFound; on
    submission 1 — which already has both a question and an older
    response — it succeeds and replaces the stored response. -/
theorem claim_C7_record_response_witness :
    (get_submission sampleSubState 7 = none ∧
      verify_response_endpoint sampleSubState 7 "x" =
        (Except.error ApiError.notFound, sampleSubState)) ∧
    (get_submission sampleSubState 1 =
        some ⟨1, "Plants use sunlight.", some "Why?", some "Old answer", some 1⟩ ∧
      verify_response_endpoint sampleSubState 1 "Because sunlight" =
        (Except.ok { submission_id := 1 },
         { sampleSubState with submissions := [⟨1, "Plants use sunlight.", some "Why?", some "Because sunlight", some 1⟩] })) :=
  ⟨⟨rfl, (claim_C7_record_response sampleSubState 7 "x").1 rfl⟩,
   ⟨rfl, (claim_C7_record_response sampleSubState 1 "Because sunlight").2 _ rfl⟩⟩

/-- C8: the SystemPrompt is a singleton addressed by the fixed id 1:
    (i) get_system_prompt reads the id-1 row and, when it is absent,
    creates it with the built-in default prompt text within the same call;
    (ii) starting from a store with at most one id-1 row, any nonempty
    sequence of get / update operations leaves exactly one id-1 row;
    (iii) update overwrites only the prompt_text of the id-1 row: the
    returned row is the found row with prompt_text replaced, and every
    other row is untouched. -/
theorem claim_C8_system_prompt_singleton (s : DBState) (ops : List PromptOp) (t : String) :
    (s.system_prompts.find? (fun p => p.id == 1) = none →
      get_system_prompt s =
        (⟨1, DEFAULT_SYSTEM_PROMPT⟩,
         { s with system_prompts := s.system_prompts ++ [⟨1, DEFAULT_SYSTEM_PROMPT⟩] })) ∧
    (promptCount s ≤ 1 → ops ≠ [] → promptCount (applyPromptOps s ops) = 1) ∧
    (∀ p, s.system_prompts.find? (fun q => q.id == 1) = some p →
      update_system_prompt s t =
        ({ p with prompt_text := t },
         { s with system_prompts := s.system_prompts.map (fun q => if q.id == 1 then { p with prompt_text := t } else q) })) := by
  refine ⟨?_, ?_, ?_⟩
  · intro h
    unfold get_system_prompt
    rw [h]
  · intro hc hne
    cases ops with
    | nil => exact absurd rfl hne
    | cons op rest =>
      have hstep : promptCount (applyPromptOp s op) = 1 := promptCount_applyPromptOp op hc
      exact promptCount_applyPromptOps rest (applyPromptOp s op) hstep
  · intro p h
    have hg : get_system_prompt s = (p, s) := by
      unfold get_system_prompt
      rw [h]
    unfold update_system_prompt
    rw [hg]

/-- Witness for C8: from the empty store, get creates the default id-1 row;
    a get-then-update run leaves exactly one id-1 row; and update on a
    store holding the default row rewrites only its text. -/
theorem claim_C8_system_prompt_singleton_witness :
    (get_system_prompt ⟨[], [], [], 1, 1⟩ =
      (⟨1, DEFAULT_SYSTEM_PROMPT⟩,
       { (⟨[], [], [], 1, 1⟩ : DBState) with system_prompts := [⟨1, DEFAULT_SYSTEM_PROMPT⟩] })) ∧
    promptCount (applyPromptOps ⟨[], [], [], 1, 1⟩
      [PromptOp.getOp, PromptOp.updateOp "Be strict."]) = 1 ∧
    update_system_prompt sampleFreshState "Ask harder questions." =
      (⟨1, "Ask harder questions."⟩,
       { sampleFreshState with system_prompts := [⟨1, "Ask harder questions."⟩] }) :=
  ⟨(claim_C8_system_prompt_singleton ⟨[], [], [], 1, 1⟩ [] "").1 rfl,
   (claim_C8_system_prompt_singleton ⟨[], [], [], 1, 1⟩
      [PromptOp.getOp, PromptOp.updateOp "Be strict."] "").2.1 (by decide) (by simp),
   (claim_C8_system_prompt_singleton sampleFreshState []
      "Ask harder questions.").2.2 ⟨1, DEFAULT_SYSTEM_PROMPT⟩ rfl⟩

/-- C9: update is a partial update.  With a well-keyed table and an
    existing row a0: providing only prompt_text returns the row with just
    that field replaced, the table is the pointwise replacement, and no
    row's is_current flag changes; providing is_current = false on the
    currently-current row is permitted, succeeds — returning the row with
    only the flag cleared, prompt_text kept — and leaves no assignment
    current. -/
theorem claim_C9_partial_update (s : DBState) (aid : Nat) (a0 : Assignment) (t : String)
    (hnd : (s.assignments.map (fun a => a.id)).Nodup)
    (h0 : get_assignment s aid = some a0) :
    ((update_assignment s aid ⟨some t, none⟩).1 = some { a0 with prompt_text := t } ∧
     (update_assignment s aid ⟨some t, none⟩).2 =
       { s with assignments := replaceById aid { a0 with prompt_text := t } s.assignments } ∧
     (update_assignment s aid ⟨some t, none⟩).2.assignments.map (fun a => (a.id, a.is_current)) =
       s.assignments.map (fun a => (a.id, a.is_current))) ∧
    (a0.is_current = true → currentCount s ≤ 1 →
      (update_assignment s aid ⟨none, some false⟩).1 = some { a0 with is_current := false } ∧
      currentCount (update_assignment s aid ⟨none, some false⟩).2 = 0) := by
  have ha0 : a0.id = aid := by
    have := List.find?_some h0
    simpa using this
  have ha0mem : a0 ∈ s.assignments := List.mem_of_find?_eq_some h0
  constructor
  · have happ : applyUpdateFields ⟨some t, none⟩ a0 = { a0 with prompt_text := t } := rfl
    have hfind : (replaceById aid { a0 with prompt_text := t } s.assignments).find?
        (fun a => a.id == aid) = some { a0 with prompt_text := t } :=
      find?_replaceById h0 (by simp [ha0])
    refine ⟨?_, ?_, ?_⟩
    · unfold update_assignment
      rw [h0]
      dsimp only
      rw [if_neg (by simp)]
      dsimp only
      unfold get_assignment
      dsimp only
      rw [happ]
      exact hfind
    · unfold update_assignment
      rw [h0]
      dsimp only
      rw [if_neg (by simp)]
      dsimp only
      rw [happ]
    · unfold update_assignment
      rw [h0]
      dsimp only
      rw [if_neg (by simp)]
      dsimp only
      rw [happ]
      unfold replaceById
      rw [List.map_map]
      apply List.map_congr_left
      intro a ha
      by_cases hcid : (a.id == aid) = true
      · have haid : a.id = aid := by simpa using hcid
        have : a = a0 := List.inj_on_of_nodup_map hnd ha ha0mem (by rw [haid, ha0])
        subst this
        simp [Function.comp, hcid]
      · simp [Function.comp, hcid]
  · intro hcur hle
    have happ : applyUpdateFields ⟨none, some false⟩ a0 = { a0 with is_current := false } := rfl
    constructor
    · unfold update_assignment
      rw [h0]
      dsimp only
      rw [if_neg (by simp)]
      dsimp only
      unfold get_assignment
      dsimp only
      rw [happ]
      exact find?_replaceById h0 (by simp [ha0])
    · unfold update_assignment
      rw [h0]
      dsimp only
      rw [if_neg (by simp)]
      dsimp only
      unfold currentCount at hle ⊢
      dsimp only
      rw [happ]
      unfold replaceById
      rw [List.countP_map, List.countP_eq_zero]
      intro a ha
      by_cases hcid : (a.id == aid) = true
      · simp [Function.comp, hcid]
      · simp only [Function.comp, hcid, if_false]
        intro hflag
        have : a = a0 := countP_le_one_unique hle ha hflag ha0mem (by simpa using hcur)
        rw [this, ha0] at hcid
        simp at hcid

/-- Witness for C9: in the sample state, a prompt-only update of row 2
    keeps every flag, and clearing the flag of current row 1 succeeds and
    leaves zero current assignments. -/
theorem claim_C9_partial_update_witness :
    ((update_assignment sampleAssignState 2 ⟨some "Updated text", none⟩).1 =
        some ⟨2, "Updated text", false⟩ ∧
      (update_assignment sampleAssignState 2 ⟨some "Updated text", none⟩).2.assignments.map
          (fun a => (a.id, a.is_current)) =
        sampleAssignState.assignments.map (fun a => (a.id, a.is_current))) ∧
    ((update_assignment sampleAssignState 1 ⟨none, some false⟩).1 =
        some ⟨1, "Explain photosynthesis", false⟩ ∧
      currentCount (update_assignment sampleAssignState 1 ⟨none, some false⟩).2 = 0) :=
  ⟨⟨(claim_C9_partial_update sampleAssignState 2 ⟨2, "Describe mitosis", false⟩
        "Updated text" (by decide) rfl).1.1,
    (claim_C9_partial_update sampleAssignState 2 ⟨2, "Describe mitosis", false⟩
        "Updated text" (by decide) rfl).1.2.2⟩,
   (claim_C9_partial_update sampleAssignState 1 ⟨1, "Explain photosynthesis", true⟩
        "" (by decide) rfl).2 rfl (by decide)⟩

end ThoughtCaptcha
